import Mathlib

/-!
Shallow embedding of the panoramic object-feature extraction pipeline of
`models/eval/eval.py` (`Eval.get_visual_features`, lines 150-209), together
with proofs of the specified properties.

Modelling conventions:
* numpy / torch scalars (pixel coordinates, confidence scores, raw mask
  values, angles) are modelled as `ℚ`; arrays are lists; a 2-d array is a
  list of rows.
* the external collaborators (`create_panorama`, the image loader, the
  region detector, `scripts.geometry_utils.calculate_angles`) are passed as
  function parameters, exactly as the source receives them as arguments or
  imports; their internals are outside the excerpt.
* Python `IndexError` (out-of-range `args.panoramic_boxes[i]` or
  `camera_infos[i]`) is modelled by `Option`: `none` means the call raised
  and produced no result at all.
* device moves (`.to(cuda_device)`, `.cpu().numpy()`) are value-preserving
  and are dropped.
-/

namespace EvalModel

/-- One dense feature vector (a row of `detector_results[i]["features"]`). -/
abbrev FeatureVec := List ℚ

/-- A bounding box in pixel space, image-coordinate ordering x1, y1, x2, y2
(one row of `detector_results[i]["boxes"]`). -/
structure Box where
  x1 : ℚ
  y1 : ℚ
  x2 : ℚ
  y2 : ℚ
deriving DecidableEq, Repr

/-- A raw probability-valued segmentation mask at detector resolution
(one element of `detector_results[i]["masks"]`), as a list of pixel rows. -/
abbrev RawMask := List (List ℚ)

/-- Per-view camera metadata produced by `create_panorama`; the pipeline
reads the fields `h_view_angle` and `v_view_angle`. -/
structure CameraInfo where
  h_view_angle : ℚ
  v_view_angle : ℚ
deriving DecidableEq, Repr

/-- One detection group `detector_results[i]`: the per-view parallel arrays
returned by the region detector. -/
structure DetectorResult where
  features : List FeatureVec
  boxes : List Box
  scores : List ℚ
  labels : List ℕ
  masks : List RawMask
deriving DecidableEq, Repr

/-- The per-view packaged output dict appended to `object_features`
(source lines 198-207). -/
structure ObjectFeatureRecord where
  box_features : List FeatureVec
  roi_angles : List (ℚ × ℚ)
  boxes : List Box
  masks : List (List (List Bool))
  class_probs : List ℚ
  class_labels : List ℕ
  camera_info : CameraInfo
  num_objects : ℕ
deriving DecidableEq, Repr

/-- Signature of the geometry utility `calculate_angles`: x centers,
y centers, horizontal field of view, vertical field of view, returning the
pair of per-point horizontal and vertical angle sequences. -/
abbrev AngleFn := List ℚ → List ℚ → ℚ → ℚ → List ℚ × List ℚ

/-- Contract of the geometry utility (spec 4.1): on parallel input
sequences of equal length it returns two sequences of that same length. -/
def AngleFnContract (f : AngleFn) : Prop :=
  ∀ (cx cy : List ℚ) (hfov vfov : ℚ), cy.length = cx.length →
    (f cx cy hfov vfov).1.length = cx.length ∧
      (f cx cy hfov vfov).2.length = cx.length

/-- Horizontal box center `(coordinates[:, 0] + coordinates[:, 2]) // 2`
(source line 176); numpy `//` is floor division. -/
def boxCenterX (b : Box) : ℚ := (Rat.floor ((b.x1 + b.x2) / 2) : ℤ)

/-- Vertical box center `(coordinates[:, 1] + coordinates[:, 3]) // 2`
(source line 177); numpy `//` is floor division. -/
def boxCenterY (b : Box) : ℚ := (Rat.floor ((b.y1 + b.y2) / 2) : ℤ)

/-- Elementwise mask binarization `masks > 0.5` (source line 202). -/
def binarizeMask (m : RawMask) : List (List Bool) :=
  m.map (fun row => row.map (fun v => decide (v > 1 / 2)))

/-- Angle computation for one view (source lines 174-188): when the view
has at least one box, feed the column-wise floor-division box centers and
the view's field-of-view angles to `calculate_angles` and stack the two
returned sequences column-wise (`np.stack([h_angle, v_angle], 1)`);
otherwise `np.zeros((0, 2))`, i.e. the empty list of pairs. -/
def viewAngles (calcAngles : AngleFn) (cam : CameraInfo) (det : DetectorResult) :
    List (ℚ × ℚ) :=
  if 0 < det.boxes.length then
    let hv := calcAngles (det.boxes.map boxCenterX) (det.boxes.map boxCenterY)
      cam.h_view_angle cam.v_view_angle
    hv.1.zip hv.2
  else
    []

/-- Body of the per-view loop of `get_visual_features` (source lines
168-207): truncate every per-box array to the first `num_boxes` entries
(`arr[:num_boxes]`; `num_boxes` is the per-view cap, a nonnegative
configuration integer per spec 4.4, so the Python slice keeps
`min(length, num_boxes)` leading entries), binarize the kept masks, and
package the result with the view's camera info and the kept count
`box_features.shape[0]`. -/
def assembleView (calcAngles : AngleFn) (cam : CameraInfo) (det : DetectorResult)
    (num_boxes : ℕ) : ObjectFeatureRecord :=
  { box_features := det.features.take num_boxes
    roi_angles := (viewAngles calcAngles cam det).take num_boxes
    boxes := det.boxes.take num_boxes
    masks := (det.masks.take num_boxes).map binarizeMask
    class_probs := det.scores.take num_boxes
    class_labels := det.labels.take num_boxes
    camera_info := cam
    num_objects := (det.features.take num_boxes).length }

/-- The view loop `for i in range(len(detector_results))` (source lines
166-207), appending one record per detection group.  Looking up
`args.panoramic_boxes[i]` or `camera_infos[i]` out of range raises
`IndexError`, which destroys the whole call; this is the `none` case. -/
def assembleAll (calcAngles : AngleFn) (camera_infos : List CameraInfo)
    (panoramic_boxes : List ℕ) (dets : List DetectorResult) (i : ℕ) :
    Option (List ObjectFeatureRecord) :=
  match dets with
  | [] => some []
  | det :: rest =>
    (panoramic_boxes[i]?).bind fun num_boxes =>
      (camera_infos[i]?).bind fun cam =>
        (assembleAll calcAngles camera_infos panoramic_boxes rest (i + 1)).map
          fun recs => assembleView calcAngles cam det num_boxes :: recs

/-- Events recording the collaborator invocations that
`get_visual_features` performs before its view loop. -/
inductive CallEvent where
  /-- `create_panorama(env, start)` with the starting view index. -/
  | panoramaCall : ℕ → CallEvent
  /-- `image_loader(panorama_images, pack=True)` with the batch size. -/
  | loaderCall : ℕ → CallEvent
  /-- `region_detector(images)` with the packed batch size. -/
  | detectorCall : ℕ → CallEvent
deriving DecidableEq, Repr

/-- Boolean recognizer for panorama-capture events. -/
def CallEvent.isPanorama : CallEvent → Bool
  | .panoramaCall _ => true
  | _ => false

/-- Boolean recognizer for image-loader events. -/
def CallEvent.isLoader : CallEvent → Bool
  | .loaderCall _ => true
  | _ => false

/-- Boolean recognizer for region-detector events. -/
def CallEvent.isDetector : CallEvent → Bool
  | .detectorCall _ => true
  | _ => false

/-- `Eval.get_visual_features` (source lines 150-209) with an explicit
trace of its collaborator invocations: capture the panorama starting at
view 0, load and pack the full image batch, run the region detector once
on the packed batch, then assemble one record per view. -/
def getVisualFeaturesTraced {Env Img PImg Sz : Type}
    (createPanorama : Env → ℕ → List Img × List CameraInfo)
    (imageLoader : List Img → Bool → List PImg × List Sz)
    (regionDetector : List PImg → List DetectorResult)
    (calcAngles : AngleFn) (panoramic_boxes : List ℕ) (env : Env) :
    Option (List ObjectFeatureRecord) × List CallEvent :=
  let pano := createPanorama env 0
  let panorama_images := pano.1
  let camera_infos := pano.2
  let loaded := imageLoader panorama_images true
  let images := loaded.1
  let detector_results := regionDetector images
  (assembleAll calcAngles camera_infos panoramic_boxes detector_results 0,
    [CallEvent.panoramaCall 0, CallEvent.loaderCall panorama_images.length,
      CallEvent.detectorCall images.length])

/-- `Eval.get_visual_features`: the returned `object_features` value
(`none` when the call raised an `IndexError`). -/
def getVisualFeatures {Env Img PImg Sz : Type}
    (createPanorama : Env → ℕ → List Img × List CameraInfo)
    (imageLoader : List Img → Bool → List PImg × List Sz)
    (regionDetector : List PImg → List DetectorResult)
    (calcAngles : AngleFn) (panoramic_boxes : List ℕ) (env : Env) :
    Option (List ObjectFeatureRecord) :=
  (getVisualFeaturesTraced createPanorama imageLoader regionDetector calcAngles
    panoramic_boxes env).1

/-- The invocation trace of one `get_visual_features` call. -/
def callTrace {Env Img PImg Sz : Type}
    (createPanorama : Env → ℕ → List Img × List CameraInfo)
    (imageLoader : List Img → Bool → List PImg × List Sz)
    (regionDetector : List PImg → List DetectorResult)
    (calcAngles : AngleFn) (panoramic_boxes : List ℕ) (env : Env) :
    List CallEvent :=
  (getVisualFeaturesTraced createPanorama imageLoader regionDetector calcAngles
    panoramic_boxes env).2

/-- The per-view camera metadata produced by the panorama-capture step. -/
def cameraInfosOf {Env Img : Type}
    (createPanorama : Env → ℕ → List Img × List CameraInfo) (env : Env) :
    List CameraInfo :=
  (createPanorama env 0).2

/-- The detection groups produced by the detector step: the detector
applied to the packed batch built from the captured panorama. -/
def detectorResultsOf {Env Img PImg Sz : Type}
    (createPanorama : Env → ℕ → List Img × List CameraInfo)
    (imageLoader : List Img → Bool → List PImg × List Sz)
    (regionDetector : List PImg → List DetectorResult) (env : Env) :
    List DetectorResult :=
  regionDetector (imageLoader (createPanorama env 0).1 true).1

/-- Detector-output well-formedness for one view (spec 4.3): all five
per-box arrays have leading length equal to the view's detection count. -/
def parallelArrays (det : DetectorResult) (K : ℕ) : Prop :=
  det.features.length = K ∧ det.boxes.length = K ∧ det.scores.length = K ∧
    det.labels.length = K ∧ det.masks.length = K

/-- Unfolding: `get_visual_features` is the view loop run over the
detector output, with the capture's camera metadata, starting at index 0. -/
theorem getVisualFeatures_eq_assembleAll {Env Img PImg Sz : Type}
    (createPanorama : Env → ℕ → List Img × List CameraInfo)
    (imageLoader : List Img → Bool → List PImg × List Sz)
    (regionDetector : List PImg → List DetectorResult)
    (calcAngles : AngleFn) (panoramic_boxes : List ℕ) (env : Env) :
    getVisualFeatures createPanorama imageLoader regionDetector calcAngles
        panoramic_boxes env =
      assembleAll calcAngles (cameraInfosOf createPanorama env) panoramic_boxes
        (detectorResultsOf createPanorama imageLoader regionDetector env) 0 := rfl

/-- The view loop yields one record per detection group. -/
theorem assembleAll_length (calcAngles : AngleFn) (ci : List CameraInfo)
    (pb : List ℕ) :
    ∀ (dets : List DetectorResult) (i : ℕ) (recs : List ObjectFeatureRecord),
      assembleAll calcAngles ci pb dets i = some recs →
      recs.length = dets.length := by
  intro dets
  induction dets with
  | nil =>
    intro i recs h
    simp only [assembleAll, Option.some.injEq] at h
    simp [← h]
  | cons det rest ih =>
    intro i recs h
    simp only [assembleAll, Option.bind_eq_some, Option.map_eq_some'] at h
    obtain ⟨cap, -, cam, -, recs2, hrecs2, hcons⟩ := h
    subst hcons
    simp [ih (i + 1) recs2 hrecs2]

/-- On success, the `j`-th record of the view loop started at index `i` is
the assembled view for the `j`-th detection group, the cap-table entry at
`i + j` and the camera info at `i + j`. -/
theorem assembleAll_get (calcAngles : AngleFn) (ci : List CameraInfo)
    (pb : List ℕ) :
    ∀ (dets : List DetectorResult) (i : ℕ) (recs : List ObjectFeatureRecord),
      assembleAll calcAngles ci pb dets i = some recs →
      ∀ (j : ℕ) (det : DetectorResult), dets[j]? = some det →
        ∃ cap cam, pb[i + j]? = some cap ∧ ci[i + j]? = some cam ∧
          recs[j]? = some (assembleView calcAngles cam det cap) := by
  intro dets
  induction dets with
  | nil =>
    intro i recs _ j det hj
    simp at hj
  | cons d rest ih =>
    intro i recs h j det hj
    simp only [assembleAll, Option.bind_eq_some, Option.map_eq_some'] at h
    obtain ⟨cap, hcap, cam, hcam, recs2, hrecs2, hcons⟩ := h
    subst hcons
    cases j with
    | zero =>
      simp only [List.getElem?_cons_zero, Option.some.injEq] at hj
      subst hj
      exact ⟨cap, cam, by simpa using hcap, by simpa using hcam, by simp⟩
    | succ j =>
      simp only [List.getElem?_cons_succ] at hj
      obtain ⟨cap2, cam2, h1, h2, h3⟩ := ih (i + 1) recs2 hrecs2 j det hj
      refine ⟨cap2, cam2, ?_, ?_, ?_⟩
      · rw [show i + (j + 1) = i + 1 + j by omega]; exact h1
      · rw [show i + (j + 1) = i + 1 + j by omega]; exact h2
      · simpa using h3

/-- The view loop succeeds as soon as the cap table and the camera-info
list cover every index it visits. -/
theorem assembleAll_isSome_of_covered (calcAngles : AngleFn)
    (ci : List CameraInfo) (pb : List ℕ) :
    ∀ (dets : List DetectorResult) (i : ℕ),
      (∀ j, j < dets.length → i + j < pb.length ∧ i + j < ci.length) →
      ∃ recs, assembleAll calcAngles ci pb dets i = some recs := by
  intro dets
  induction dets with
  | nil =>
    intro i _
    exact ⟨[], rfl⟩
  | cons d rest ih =>
    intro i hcov
    obtain ⟨hpb0, hci0⟩ := hcov 0 (by simp)
    rw [Nat.add_zero] at hpb0 hci0
    obtain ⟨recs2, hrecs2⟩ := ih (i + 1) (by
      intro j hj
      have := hcov (j + 1) (by simpa using Nat.succ_lt_succ hj)
      omega)
    refine ⟨assembleView calcAngles ci[i] d pb[i] :: recs2, ?_⟩
    simp only [assembleAll, List.getElem?_eq_getElem hpb0,
      List.getElem?_eq_getElem hci0, Option.some_bind, hrecs2, Option.map_some']

/-- Chain lemma: on a successful `get_visual_features` call, the record at
view index `i` is exactly the assembled view for the `i`-th detection
group, with that view's cap-table entry and camera info. -/
theorem getVisualFeatures_record_eq {Env Img PImg Sz : Type}
    (createPanorama : Env → ℕ → List Img × List CameraInfo)
    (imageLoader : List Img → Bool → List PImg × List Sz)
    (regionDetector : List PImg → List DetectorResult)
    (calcAngles : AngleFn) (panoramic_boxes : List ℕ) (env : Env)
    (recs : List ObjectFeatureRecord) (i C : ℕ) (det : DetectorResult)
    (cam : CameraInfo) (r : ObjectFeatureRecord)
    (hres : getVisualFeatures createPanorama imageLoader regionDetector
      calcAngles panoramic_boxes env = some recs)
    (hdet : (detectorResultsOf createPanorama imageLoader regionDetector
      env)[i]? = some det)
    (hcam : (cameraInfosOf createPanorama env)[i]? = some cam)
    (hC : panoramic_boxes[i]? = some C)
    (hr : recs[i]? = some r) :
    r = assembleView calcAngles cam det C := by
  rw [getVisualFeatures_eq_assembleAll] at hres
  obtain ⟨cap, cam2, h1, h2, h3⟩ :=
    assembleAll_get calcAngles (cameraInfosOf createPanorama env)
      panoramic_boxes _ 0 recs hres i det hdet
  rw [Nat.zero_add] at h1 h2
  rw [hC] at h1
  rw [hcam] at h2
  rw [h3] at hr
  cases h1
  cases h2
  cases hr
  rfl

/-- Under the geometry-utility contract, the stacked angle array of a view
has one row per detection. -/
theorem viewAngles_length (calcAngles : AngleFn)
    (hcalc : AngleFnContract calcAngles) (cam : CameraInfo)
    (det : DetectorResult) :
    (viewAngles calcAngles cam det).length = det.boxes.length := by
  unfold viewAngles
  split
  · have h := hcalc (det.boxes.map boxCenterX) (det.boxes.map boxCenterY)
      cam.h_view_angle cam.v_view_angle (by simp)
    simp only [List.length_map] at h
    simp [List.length_zip, h.1, h.2]
  · simp
    omega

/-- Camera metadata used by the concrete test panorama. -/
def sampleCam : CameraInfo := ⟨60, 45⟩

/-- First test box; centers (5, 10). -/
def sampleBox0 : Box := ⟨0, 0, 10, 20⟩

/-- Second test box, the boundary example of spec 8: centers (1, 1). -/
def sampleBox1 : Box := ⟨1, 1, 2, 2⟩

/-- Third test box; centers (6, 8). -/
def sampleBox2 : Box := ⟨4, 6, 8, 10⟩

/-- Detection group with three detections, exercising truncation at cap 2
and mask values on both sides of (and exactly at) the 0.5 threshold. -/
def sampleDetA : DetectorResult :=
  { features := [[1], [2], [3]]
    boxes := [sampleBox0, sampleBox1, sampleBox2]
    scores := [1, 1 / 2, 1 / 4]
    labels := [7, 8, 9]
    masks := [[[1, 0]], [[1 / 2, 3 / 4]], [[0, 0]]] }

/-- Detection group with zero detections. -/
def sampleDetB : DetectorResult := ⟨[], [], [], [], []⟩

/-- A concrete geometry utility satisfying `AngleFnContract`: it returns
the center coordinates themselves as angles, which makes the values fed to
it observable in the output. -/
def sampleAngleFn : AngleFn := fun cx cy _ _ => (cx, cy)

/-- Concrete panorama capture: two views with identical camera metadata. -/
def sampleCapture : Unit → ℕ → List Unit × List CameraInfo :=
  fun _ _ => ([(), ()], [sampleCam, sampleCam])

/-- Concrete image loader preserving the batch. -/
def sampleLoader : List Unit → Bool → List Unit × List ℕ :=
  fun imgs _ => (imgs, imgs.map fun _ => 300)

/-- Concrete detector: view 0 yields three detections, view 1 none. -/
def sampleDetector : List Unit → List DetectorResult :=
  fun _ => [sampleDetA, sampleDetB]

/-- Expected record for test view 0 under cap 2. -/
def sampleRec0 : ObjectFeatureRecord :=
  { box_features := [[1], [2]]
    roi_angles := [(5, 10), (1, 1)]
    boxes := [sampleBox0, sampleBox1]
    masks := [[[true, false]], [[false, true]]]
    class_probs := [1, 1 / 2]
    class_labels := [7, 8]
    camera_info := sampleCam
    num_objects := 2 }

/-- Expected record for test view 1 (no detections). -/
def sampleRec1 : ObjectFeatureRecord :=
  { box_features := []
    roi_angles := []
    boxes := []
    masks := []
    class_probs := []
    class_labels := []
    camera_info := sampleCam
    num_objects := 0 }

/-- The sample geometry utility satisfies the spec 4.1 length contract. -/
theorem sampleAngleFn_contract : AngleFnContract sampleAngleFn :=
  fun _ _ _ _ h => ⟨rfl, h⟩

/-- Concrete evaluation of the pipeline on the two-view test panorama with
cap table `[2, 2]` (the end-to-end scenario of spec 8). -/
theorem sampleEval :
    getVisualFeatures sampleCapture sampleLoader sampleDetector sampleAngleFn
      [2, 2] () = some [sampleRec0, sampleRec1] := by
  norm_num [getVisualFeatures, getVisualFeaturesTraced, assembleAll,
    assembleView, viewAngles, binarizeMask, boxCenterX, boxCenterY,
    sampleCapture, sampleLoader, sampleDetector, sampleAngleFn, sampleDetA,
    sampleDetB, sampleCam, sampleBox0, sampleBox1, sampleBox2, sampleRec0,
    sampleRec1, Rat.floor, decide_eq_true_eq, decide_eq_false_iff_not]

/-- Claim C1: for every view processed by `get_visual_features` with `K`
raw detections and per-view cap `C`, the resulting record has exactly
`min K C` entries in each of the six per-object arrays, all six arrays
share that leading length, and `num_objects` equals `min K C`. -/
theorem claim1_record_lengths {Env Img PImg Sz : Type}
    (createPanorama : Env → ℕ → List Img × List CameraInfo)
    (imageLoader : List Img → Bool → List PImg × List Sz)
    (regionDetector : List PImg → List DetectorResult)
    (calcAngles : AngleFn) (panoramic_boxes : List ℕ) (env : Env)
    (recs : List ObjectFeatureRecord) (i K C : ℕ) (det : DetectorResult)
    (cam : CameraInfo) (r : ObjectFeatureRecord)
    (hcalc : AngleFnContract calcAngles)
    (hres : getVisualFeatures createPanorama imageLoader regionDetector
      calcAngles panoramic_boxes env = some recs)
    (hdet : (detectorResultsOf createPanorama imageLoader regionDetector
      env)[i]? = some det)
    (hcam : (cameraInfosOf createPanorama env)[i]? = some cam)
    (hK : parallelArrays det K)
    (hC : panoramic_boxes[i]? = some C)
    (hr : recs[i]? = some r) :
    r.box_features.length = min K C ∧ r.roi_angles.length = min K C ∧
      r.boxes.length = min K C ∧ r.masks.length = min K C ∧
      r.class_probs.length = min K C ∧ r.class_labels.length = min K C ∧
      r.num_objects = min K C := by
  obtain ⟨h1, h2, h3, h4, h5⟩ := hK
  have hrec := getVisualFeatures_record_eq createPanorama imageLoader
    regionDetector calcAngles panoramic_boxes env recs i C det cam r hres hdet
    hcam hC hr
  subst hrec
  refine ⟨?_, ?_, ?_, ?_, ?_, ?_, ?_⟩ <;>
    simp [assembleView, List.length_take, List.length_map, h1, h2, h3, h4, h5,
      viewAngles_length calcAngles hcalc] <;>
    omega

/-- Witness for C1 at the concrete two-view panorama: view 0 has 3
detections, cap 2, and every array of its record has length `min 3 2`. -/
theorem claim1_record_lengths_witness :
    sampleRec0.box_features.length = min 3 2 ∧
      sampleRec0.roi_angles.length = min 3 2 ∧
      sampleRec0.boxes.length = min 3 2 ∧ sampleRec0.masks.length = min 3 2 ∧
      sampleRec0.class_probs.length = min 3 2 ∧
      sampleRec0.class_labels.length = min 3 2 ∧
      sampleRec0.num_objects = min 3 2 :=
  claim1_record_lengths sampleCapture sampleLoader sampleDetector sampleAngleFn
    [2, 2] () [sampleRec0, sampleRec1] 0 3 2 sampleDetA sampleCam sampleRec0
    sampleAngleFn_contract sampleEval rfl rfl ⟨rfl, rfl, rfl, rfl, rfl⟩ rfl rfl

/-- Claim C2: truncation preserves detector-output order: the kept entries
of every per-object array are exactly the first `C` entries, in order, of
the corresponding detector output array, and for every kept index `j` the
`j`-th entries all derive from the detector's `j`-th detection. -/
theorem claim2_truncation_order {Env Img PImg Sz : Type}
    (createPanorama : Env → ℕ → List Img × List CameraInfo)
    (imageLoader : List Img → Bool → List PImg × List Sz)
    (regionDetector : List PImg → List DetectorResult)
    (calcAngles : AngleFn) (panoramic_boxes : List ℕ) (env : Env)
    (recs : List ObjectFeatureRecord) (i K C : ℕ) (det : DetectorResult)
    (cam : CameraInfo) (r : ObjectFeatureRecord)
    (hres : getVisualFeatures createPanorama imageLoader regionDetector
      calcAngles panoramic_boxes env = some recs)
    (hdet : (detectorResultsOf createPanorama imageLoader regionDetector
      env)[i]? = some det)
    (hcam : (cameraInfosOf createPanorama env)[i]? = some cam)
    (_hK : parallelArrays det K)
    (hC : panoramic_boxes[i]? = some C)
    (hr : recs[i]? = some r)
    (_hKC : C < K) :
    (r.box_features = det.features.take C ∧
      r.roi_angles = (viewAngles calcAngles cam det).take C ∧
      r.boxes = det.boxes.take C ∧
      r.masks = (det.masks.take C).map binarizeMask ∧
      r.class_probs = det.scores.take C ∧
      r.class_labels = det.labels.take C) ∧
    ∀ j, j < C →
      r.box_features[j]? = det.features[j]? ∧
      r.roi_angles[j]? = (viewAngles calcAngles cam det)[j]? ∧
      r.boxes[j]? = det.boxes[j]? ∧
      r.masks[j]? = (det.masks[j]?).map binarizeMask ∧
      r.class_probs[j]? = det.scores[j]? ∧
      r.class_labels[j]? = det.labels[j]? := by
  have hrec := getVisualFeatures_record_eq createPanorama imageLoader
    regionDetector calcAngles panoramic_boxes env recs i C det cam r hres hdet
    hcam hC hr
  subst hrec
  refine ⟨⟨rfl, rfl, rfl, rfl, rfl, rfl⟩, ?_⟩
  intro j hj
  refine ⟨?_, ?_, ?_, ?_, ?_, ?_⟩ <;>
    simp [assembleView, List.getElem?_take, List.getElem?_map, hj]

/-- Witness for C2 at the concrete two-view panorama (view 0, `K = 3 > 2 = C`). -/
theorem claim2_truncation_order_witness :
    sampleRec0.boxes = sampleDetA.boxes.take 2 ∧
      sampleRec0.class_probs = sampleDetA.scores.take 2 ∧
      sampleRec0.boxes[1]? = sampleDetA.boxes[1]? ∧
      sampleRec0.class_labels[1]? = sampleDetA.labels[1]? := by
  have h := claim2_truncation_order sampleCapture sampleLoader sampleDetector
    sampleAngleFn [2, 2] () [sampleRec0, sampleRec1] 0 3 2 sampleDetA sampleCam
    sampleRec0 sampleEval rfl rfl ⟨rfl, rfl, rfl, rfl, rfl⟩ rfl rfl (by decide)
  exact ⟨h.1.2.2.1, h.1.2.2.2.2.1, (h.2 1 (by decide)).2.2.1,
    (h.2 1 (by decide)).2.2.2.2.2⟩

/-- Claim C3: for every view with at least one detection, the box centers
fed to the geometry utility are `floor((x1 + x2) / 2)` and
`floor((y1 + y2) / 2)` (floor division, not the floating-point midpoint);
in particular the box `(1, 1, 2, 2)` yields center `(1, 1)`, not
`(3/2, 3/2)`. -/
theorem claim3_floor_centers {Env Img PImg Sz : Type}
    (createPanorama : Env → ℕ → List Img × List CameraInfo)
    (imageLoader : List Img → Bool → List PImg × List Sz)
    (regionDetector : List PImg → List DetectorResult)
    (calcAngles : AngleFn) (panoramic_boxes : List ℕ) (env : Env)
    (recs : List ObjectFeatureRecord) (i C : ℕ) (det : DetectorResult)
    (cam : CameraInfo) (r : ObjectFeatureRecord)
    (hres : getVisualFeatures createPanorama imageLoader regionDetector
      calcAngles panoramic_boxes env = some recs)
    (hdet : (detectorResultsOf createPanorama imageLoader regionDetector
      env)[i]? = some det)
    (hcam : (cameraInfosOf createPanorama env)[i]? = some cam)
    (hC : panoramic_boxes[i]? = some C)
    (hr : recs[i]? = some r)
    (hne : 0 < det.boxes.length) :
    r.roi_angles =
      (((calcAngles (det.boxes.map fun b => ((⌊(b.x1 + b.x2) / 2⌋ : ℤ) : ℚ))
            (det.boxes.map fun b => ((⌊(b.y1 + b.y2) / 2⌋ : ℤ) : ℚ))
            cam.h_view_angle cam.v_view_angle).1.zip
          (calcAngles (det.boxes.map fun b => ((⌊(b.x1 + b.x2) / 2⌋ : ℤ) : ℚ))
            (det.boxes.map fun b => ((⌊(b.y1 + b.y2) / 2⌋ : ℤ) : ℚ))
            cam.h_view_angle cam.v_view_angle).2).take C) ∧
      boxCenterX ⟨1, 1, 2, 2⟩ = 1 ∧ boxCenterY ⟨1, 1, 2, 2⟩ = 1 ∧
      ((1 : ℚ) + 2) / 2 = 3 / 2 ∧ boxCenterX ⟨1, 1, 2, 2⟩ ≠ 3 / 2 := by
  have hrec := getVisualFeatures_record_eq createPanorama imageLoader
    regionDetector calcAngles panoramic_boxes env recs i C det cam r hres hdet
    hcam hC hr
  subst hrec
  refine ⟨?_, ?_, ?_, by norm_num, ?_⟩
  · show (viewAngles calcAngles cam det).take C = _
    unfold viewAngles
    rw [if_pos hne]
    rfl
  · norm_num [boxCenterX, Rat.floor]
  · norm_num [boxCenterY, Rat.floor]
  · norm_num [boxCenterX, Rat.floor]

/-- Witness for C3 at the concrete two-view panorama, extracting the
floor-versus-midpoint facts for the box `(1, 1, 2, 2)`. -/
theorem claim3_floor_centers_witness :
    boxCenterX ⟨1, 1, 2, 2⟩ = 1 ∧ boxCenterY ⟨1, 1, 2, 2⟩ = 1 ∧
      boxCenterX ⟨1, 1, 2, 2⟩ ≠ 3 / 2 := by
  have h := claim3_floor_centers sampleCapture sampleLoader sampleDetector
    sampleAngleFn [2, 2] () [sampleRec0, sampleRec1] 0 2 sampleDetA sampleCam
    sampleRec0 sampleEval rfl rfl rfl rfl (by decide)
  exact ⟨h.2.1, h.2.2.1, h.2.2.2.2⟩

/-- Claim C4: mask binarization is a pure fixed threshold at `0.5`: every
kept mask is the raw mask mapped pixelwise through `v > 1/2`, an output
pixel is `true` iff its raw value exceeds `1/2`, and the boundary value
`v = 1/2` produces `false`. -/
theorem claim4_mask_threshold {Env Img PImg Sz : Type}
    (createPanorama : Env → ℕ → List Img × List CameraInfo)
    (imageLoader : List Img → Bool → List PImg × List Sz)
    (regionDetector : List PImg → List DetectorResult)
    (calcAngles : AngleFn) (panoramic_boxes : List ℕ) (env : Env)
    (recs : List ObjectFeatureRecord) (i C : ℕ) (det : DetectorResult)
    (cam : CameraInfo) (r : ObjectFeatureRecord)
    (hres : getVisualFeatures createPanorama imageLoader regionDetector
      calcAngles panoramic_boxes env = some recs)
    (hdet : (detectorResultsOf createPanorama imageLoader regionDetector
      env)[i]? = some det)
    (hcam : (cameraInfosOf createPanorama env)[i]? = some cam)
    (hC : panoramic_boxes[i]? = some C)
    (hr : recs[i]? = some r) :
    (∀ j, j < C → r.masks[j]? = (det.masks[j]?).map binarizeMask) ∧
      (∀ (raw : RawMask) (p q : ℕ) (v : ℚ),
        (raw[p]?.bind fun row => row[q]?) = some v →
        ((binarizeMask raw)[p]?.bind fun row => row[q]?) =
          some (decide (v > 1 / 2))) ∧
      (∀ v : ℚ, decide (v > (1 : ℚ) / 2) = true ↔ v > 1 / 2) ∧
      decide ((1 : ℚ) / 2 > 1 / 2) = false := by
  have hrec := getVisualFeatures_record_eq createPanorama imageLoader
    regionDetector calcAngles panoramic_boxes env recs i C det cam r hres hdet
    hcam hC hr
  subst hrec
  refine ⟨?_, ?_, ?_, by simp⟩
  · intro j hj
    simp [assembleView, List.getElem?_take, List.getElem?_map, hj]
  · intro raw p q v hv
    cases hrow : raw[p]? with
    | none => rw [hrow] at hv; simp at hv
    | some row =>
      rw [hrow] at hv
      simp only [Option.some_bind] at hv
      simp [binarizeMask, List.getElem?_map, hrow, hv]
  · intro v
    simp

/-- Witness for C4 at the concrete two-view panorama: the kept mask of
detection 1 carries the boundary pixel `1/2 ↦ false` and `3/4 ↦ true`. -/
theorem claim4_mask_threshold_witness :
    sampleRec0.masks[1]? = (sampleDetA.masks[1]?).map binarizeMask ∧
      decide ((1 : ℚ) / 2 > 1 / 2) = false := by
  have h := claim4_mask_threshold sampleCapture sampleLoader sampleDetector
    sampleAngleFn [2, 2] () [sampleRec0, sampleRec1] 0 2 sampleDetA sampleCam
    sampleRec0 sampleEval rfl rfl rfl rfl
  exact ⟨h.1 1 (by decide), h.2.2.2⟩

/-- Claim C5: a view with zero detections still yields a present,
well-formed record whose six per-object arrays all have length 0 and whose
`num_objects` is 0. -/
theorem claim5_empty_view {Env Img PImg Sz : Type}
    (createPanorama : Env → ℕ → List Img × List CameraInfo)
    (imageLoader : List Img → Bool → List PImg × List Sz)
    (regionDetector : List PImg → List DetectorResult)
    (calcAngles : AngleFn) (panoramic_boxes : List ℕ) (env : Env)
    (recs : List ObjectFeatureRecord) (i C : ℕ) (det : DetectorResult)
    (hres : getVisualFeatures createPanorama imageLoader regionDetector
      calcAngles panoramic_boxes env = some recs)
    (hdet : (detectorResultsOf createPanorama imageLoader regionDetector
      env)[i]? = some det)
    (hC : panoramic_boxes[i]? = some C)
    (hK0 : parallelArrays det 0) :
    ∃ r, recs[i]? = some r ∧ r.box_features = [] ∧ r.roi_angles = [] ∧
      r.boxes = [] ∧ r.masks = [] ∧ r.class_probs = [] ∧
      r.class_labels = [] ∧ r.num_objects = 0 := by
  obtain ⟨h1, h2, h3, h4, h5⟩ := hK0
  rw [List.length_eq_zero] at h1 h2 h3 h4 h5
  rw [getVisualFeatures_eq_assembleAll] at hres
  obtain ⟨cap, cam2, hcap, hcam2, hrec⟩ :=
    assembleAll_get calcAngles (cameraInfosOf createPanorama env)
      panoramic_boxes _ 0 recs hres i det hdet
  rw [Nat.zero_add] at hcap hcam2
  rw [hC] at hcap
  cases hcap
  refine ⟨assembleView calcAngles cam2 det C, hrec, ?_, ?_, ?_, ?_, ?_, ?_, ?_⟩
    <;> simp [assembleView, viewAngles, h1, h2, h3, h4, h5]

/-- Witness for C5 at the concrete two-view panorama: view 1 has zero
detections yet a record is present, with all arrays empty. -/
theorem claim5_empty_view_witness :
    ∃ r, ([sampleRec0, sampleRec1] :
        List ObjectFeatureRecord)[1]? = some r ∧
      r.box_features = [] ∧ r.roi_angles = [] ∧ r.boxes = [] ∧ r.masks = [] ∧
      r.class_probs = [] ∧ r.class_labels = [] ∧ r.num_objects = 0 :=
  claim5_empty_view sampleCapture sampleLoader sampleDetector sampleAngleFn
    [2, 2] () [sampleRec0, sampleRec1] 1 2 sampleDetB sampleEval rfl rfl
    ⟨rfl, rfl, rfl, rfl, rfl⟩

/-- Detection group whose `features` array has leading dimension 1 while
the view's detection count (the length of `boxes`, `scores`, `labels` and
`masks`) is 2: the shape disagreement of claim C6. -/
def mismatchDet : DetectorResult :=
  { features := [[1]]
    boxes := [sampleBox1, sampleBox0]
    scores := [1, 0]
    labels := [3, 4]
    masks := [[[1]], [[0]]] }

/-- Concrete detector producing the mismatched detection group. -/
def mismatchDetector : List Unit → List DetectorResult :=
  fun _ => [mismatchDet]

/-- Concrete single-view panorama capture. -/
def mismatchCapture : Unit → ℕ → List Unit × List CameraInfo :=
  fun _ _ => ([()], [sampleCam])

/-- The record the pipeline actually produces from the mismatched group
under cap 5: each array is truncated independently, so `box_features` has
1 row while the other arrays have 2, and `num_objects` follows
`box_features`. -/
def mismatchRec : ObjectFeatureRecord :=
  { box_features := [[1]]
    roi_angles := [(1, 1), (5, 10)]
    boxes := [sampleBox1, sampleBox0]
    masks := [[[true]], [[false]]]
    class_probs := [1, 0]
    class_labels := [3, 4]
    camera_info := sampleCam
    num_objects := 1 }

/-- Counterexample to claim C6 as stated: on a view whose `features`
array disagrees in leading dimension with the detection count, the
pipeline does not fail; it returns normally, with a record whose
per-object arrays disagree in length. -/
theorem claim6_counterexample :
    getVisualFeatures mismatchCapture sampleLoader mismatchDetector
        sampleAngleFn [5] () = some [mismatchRec] ∧
      mismatchRec.boxes.length = 2 ∧ mismatchRec.box_features.length = 1 ∧
      mismatchRec.num_objects = 1 := by
  norm_num [getVisualFeatures, getVisualFeaturesTraced, assembleAll,
    assembleView, viewAngles, binarizeMask, boxCenterX, boxCenterY,
    mismatchCapture, sampleLoader, mismatchDetector, sampleAngleFn,
    mismatchDet, sampleCam, sampleBox0, sampleBox1, mismatchRec, Rat.floor,
    decide_eq_true_eq, decide_eq_false_iff_not]

/-- Claim C6 amended: the source performs no shape check at all: whenever
the cap table and the camera-info list cover every view index,
`get_visual_features` returns normally — one record per detection group —
regardless of any disagreement between the leading dimensions of a view's
per-box arrays. -/
theorem claim6_no_shape_check {Env Img PImg Sz : Type}
    (createPanorama : Env → ℕ → List Img × List CameraInfo)
    (imageLoader : List Img → Bool → List PImg × List Sz)
    (regionDetector : List PImg → List DetectorResult)
    (calcAngles : AngleFn) (panoramic_boxes : List ℕ) (env : Env)
    (hpb : (detectorResultsOf createPanorama imageLoader regionDetector
      env).length ≤ panoramic_boxes.length)
    (hci : (detectorResultsOf createPanorama imageLoader regionDetector
      env).length ≤ (cameraInfosOf createPanorama env).length) :
    ∃ recs, getVisualFeatures createPanorama imageLoader regionDetector
        calcAngles panoramic_boxes env = some recs ∧
      recs.length = (detectorResultsOf createPanorama imageLoader
        regionDetector env).length := by
  obtain ⟨recs, hrecs⟩ :=
    assembleAll_isSome_of_covered calcAngles (cameraInfosOf createPanorama env)
      panoramic_boxes
      (detectorResultsOf createPanorama imageLoader regionDetector env) 0
      (by intro j hj; omega)
  exact ⟨recs, by rw [getVisualFeatures_eq_assembleAll]; exact hrecs,
    assembleAll_length _ _ _ _ _ _ hrecs⟩

/-- Witness for the amended C6 at the mismatched concrete input: the call
returns normally with one record. -/
theorem claim6_no_shape_check_witness :
    ∃ recs, getVisualFeatures mismatchCapture sampleLoader mismatchDetector
        sampleAngleFn [5] () = some recs ∧
      recs.length = (detectorResultsOf mismatchCapture sampleLoader
        mismatchDetector ()).length :=
  claim6_no_shape_check mismatchCapture sampleLoader mismatchDetector
    sampleAngleFn [5] () (by decide) (by decide)

/-- Claim C7: one call of `get_visual_features` performs exactly one
panorama capture (started at view 0), exactly one image-loader call on the
full panorama batch, and exactly one detector call on the packed batch,
and on success returns one record per panorama view, in view order, the
`i`-th carrying the `i`-th view's camera info. -/
theorem claim7_single_invocations {Env Img PImg Sz : Type}
    (createPanorama : Env → ℕ → List Img × List CameraInfo)
    (imageLoader : List Img → Bool → List PImg × List Sz)
    (regionDetector : List PImg → List DetectorResult)
    (calcAngles : AngleFn) (panoramic_boxes : List ℕ) (env : Env)
    (recs : List ObjectFeatureRecord)
    (hload : (imageLoader (createPanorama env 0).1 true).1.length =
      (createPanorama env 0).1.length)
    (hgroups : (regionDetector (imageLoader (createPanorama env 0).1
      true).1).length = (imageLoader (createPanorama env 0).1 true).1.length)
    (hcams : (createPanorama env 0).2.length = (createPanorama env 0).1.length)
    (hres : getVisualFeatures createPanorama imageLoader regionDetector
      calcAngles panoramic_boxes env = some recs) :
    ((callTrace createPanorama imageLoader regionDetector calcAngles
        panoramic_boxes env).countP CallEvent.isPanorama = 1 ∧
      (callTrace createPanorama imageLoader regionDetector calcAngles
        panoramic_boxes env).countP CallEvent.isLoader = 1 ∧
      (callTrace createPanorama imageLoader regionDetector calcAngles
        panoramic_boxes env).countP CallEvent.isDetector = 1) ∧
    callTrace createPanorama imageLoader regionDetector calcAngles
        panoramic_boxes env =
      [CallEvent.panoramaCall 0,
        CallEvent.loaderCall (createPanorama env 0).1.length,
        CallEvent.detectorCall (imageLoader (createPanorama env 0).1
          true).1.length] ∧
    recs.length = (cameraInfosOf createPanorama env).length ∧
    ∀ (i : ℕ) (r : ObjectFeatureRecord) (cam : CameraInfo),
      recs[i]? = some r → (cameraInfosOf createPanorama env)[i]? = some cam →
      r.camera_info = cam := by
  refine ⟨⟨?_, ?_, ?_⟩, rfl, ?_, ?_⟩
  · simp [callTrace, getVisualFeaturesTraced, List.countP_cons,
      CallEvent.isPanorama, CallEvent.isLoader, CallEvent.isDetector]
  · simp [callTrace, getVisualFeaturesTraced, List.countP_cons,
      CallEvent.isPanorama, CallEvent.isLoader, CallEvent.isDetector]
  · simp [callTrace, getVisualFeaturesTraced, List.countP_cons,
      CallEvent.isPanorama, CallEvent.isLoader, CallEvent.isDetector]
  · rw [getVisualFeatures_eq_assembleAll] at hres
    have hlen := assembleAll_length _ _ _ _ _ _ hres
    rw [hlen]
    show (regionDetector (imageLoader (createPanorama env 0).1
      true).1).length = (createPanorama env 0).2.length
    omega
  · intro i r cam hri hcami
    rw [getVisualFeatures_eq_assembleAll] at hres
    have hi : i < recs.length := (List.getElem?_eq_some.mp hri).1
    have hlen := assembleAll_length _ _ _ _ _ _ hres
    have hidet : (detectorResultsOf createPanorama imageLoader regionDetector
        env)[i]? = some (detectorResultsOf createPanorama imageLoader
        regionDetector env)[i] :=
      List.getElem?_eq_getElem (by omega)
    obtain ⟨cap, cam2, -, h2, h3⟩ :=
      assembleAll_get calcAngles (cameraInfosOf createPanorama env)
        panoramic_boxes _ 0 recs hres i _ hidet
    rw [Nat.zero_add] at h2
    rw [hcami] at h2
    cases h2
    rw [h3] at hri
    cases hri
    rfl

/-- Witness for C7 at the concrete two-view panorama. -/
theorem claim7_single_invocations_witness :
    ((callTrace sampleCapture sampleLoader sampleDetector sampleAngleFn
        [2, 2] ()).countP CallEvent.isPanorama = 1 ∧
      (callTrace sampleCapture sampleLoader sampleDetector sampleAngleFn
        [2, 2] ()).countP CallEvent.isLoader = 1 ∧
      (callTrace sampleCapture sampleLoader sampleDetector sampleAngleFn
        [2, 2] ()).countP CallEvent.isDetector = 1) ∧
    ([sampleRec0, sampleRec1] : List ObjectFeatureRecord).length =
      (cameraInfosOf sampleCapture ()).length ∧
    sampleRec0.camera_info = sampleCam := by
  have h := claim7_single_invocations sampleCapture sampleLoader
    sampleDetector sampleAngleFn [2, 2] () [sampleRec0, sampleRec1] rfl rfl
    rfl sampleEval
  exact ⟨h.1, h.2.2.1, h.2.2.2 0 sampleRec0 sampleCam rfl rfl⟩

/-- Claim C9: `get_visual_features` indexes the cap table with no bounds
check and no default, so whenever the table is shorter than the number of
detection groups the call fails with an index error and produces no
records at all. -/
theorem claim9_cap_table_precondition {Env Img PImg Sz : Type}
    (createPanorama : Env → ℕ → List Img × List CameraInfo)
    (imageLoader : List Img → Bool → List PImg × List Sz)
    (regionDetector : List PImg → List DetectorResult)
    (calcAngles : AngleFn) (panoramic_boxes : List ℕ) (env : Env)
    (hshort : panoramic_boxes.length < (detectorResultsOf createPanorama
      imageLoader regionDetector env).length) :
    getVisualFeatures createPanorama imageLoader regionDetector calcAngles
      panoramic_boxes env = none := by
  cases h : getVisualFeatures createPanorama imageLoader regionDetector
    calcAngles panoramic_boxes env with
  | none => rfl
  | some recs =>
    exfalso
    rw [getVisualFeatures_eq_assembleAll] at h
    have hj : (detectorResultsOf createPanorama imageLoader regionDetector
        env)[panoramic_boxes.length]? = some (detectorResultsOf createPanorama
        imageLoader regionDetector env)[panoramic_boxes.length] :=
      List.getElem?_eq_getElem hshort
    obtain ⟨cap, cam, h1, -, -⟩ :=
      assembleAll_get calcAngles (cameraInfosOf createPanorama env)
        panoramic_boxes _ 0 recs h panoramic_boxes.length _ hj
    rw [Nat.zero_add] at h1
    exact absurd (List.getElem?_eq_some.mp h1).1 (lt_irrefl _)

/-- Witness for C9: with an empty cap table and two detection groups the
call yields `none`. -/
theorem claim9_cap_table_precondition_witness :
    getVisualFeatures sampleCapture sampleLoader sampleDetector sampleAngleFn
      [] () = none :=
  claim9_cap_table_precondition sampleCapture sampleLoader sampleDetector
    sampleAngleFn [] () (by decide)

/-- Claim C10: for every view, regardless of detection count, the boxes of
the output record are exactly the first `min K C` rows of the detector's
box array for that view, unchanged and in order. -/
theorem claim10_boxes_passthrough {Env Img PImg Sz : Type}
    (createPanorama : Env → ℕ → List Img × List CameraInfo)
    (imageLoader : List Img → Bool → List PImg × List Sz)
    (regionDetector : List PImg → List DetectorResult)
    (calcAngles : AngleFn) (panoramic_boxes : List ℕ) (env : Env)
    (recs : List ObjectFeatureRecord) (i C : ℕ) (det : DetectorResult)
    (cam : CameraInfo) (r : ObjectFeatureRecord)
    (hres : getVisualFeatures createPanorama imageLoader regionDetector
      calcAngles panoramic_boxes env = some recs)
    (hdet : (detectorResultsOf createPanorama imageLoader regionDetector
      env)[i]? = some det)
    (hcam : (cameraInfosOf createPanorama env)[i]? = some cam)
    (hC : panoramic_boxes[i]? = some C)
    (hr : recs[i]? = some r) :
    r.boxes = det.boxes.take C ∧
      r.boxes.length = min det.boxes.length C ∧
      ∀ j, j < min det.boxes.length C → r.boxes[j]? = det.boxes[j]? := by
  have hrec := getVisualFeatures_record_eq createPanorama imageLoader
    regionDetector calcAngles panoramic_boxes env recs i C det cam r hres hdet
    hcam hC hr
  subst hrec
  refine ⟨rfl, ?_, ?_⟩
  · simp [assembleView, List.length_take]
    omega
  · intro j hj
    simp only [assembleView]
    rw [List.getElem?_take]
    rw [if_pos (by omega)]

/-- Witness for C10 at the concrete two-view panorama (view 0). -/
theorem claim10_boxes_passthrough_witness :
    sampleRec0.boxes = sampleDetA.boxes.take 2 ∧
      sampleRec0.boxes.length = min sampleDetA.boxes.length 2 ∧
      sampleRec0.boxes[0]? = sampleDetA.boxes[0]? := by
  have h := claim10_boxes_passthrough sampleCapture sampleLoader
    sampleDetector sampleAngleFn [2, 2] () [sampleRec0, sampleRec1] 0 2
    sampleDetA sampleCam sampleRec0 sampleEval rfl rfl rfl rfl
  exact ⟨h.1, h.2.1, h.2.2 0 (by decide)⟩

/-- Claim C8: for a view with `N > 0` detections, the record's
`roi_angles` are the column-wise stack (h first, v second) of the two
sequences returned by the geometry utility on the view's box centers and
that view's field-of-view angles, computed on all `N` boxes before
truncation (under the geometry-utility contract the stacked array has `N`
rows); for a view with zero detections the angles array is shape-zero. -/
theorem claim8_roi_angles {Env Img PImg Sz : Type}
    (createPanorama : Env → ℕ → List Img × List CameraInfo)
    (imageLoader : List Img → Bool → List PImg × List Sz)
    (regionDetector : List PImg → List DetectorResult)
    (calcAngles : AngleFn) (panoramic_boxes : List ℕ) (env : Env)
    (recs : List ObjectFeatureRecord) (i C : ℕ) (det : DetectorResult)
    (cam : CameraInfo) (r : ObjectFeatureRecord)
    (hcalc : AngleFnContract calcAngles)
    (hres : getVisualFeatures createPanorama imageLoader regionDetector
      calcAngles panoramic_boxes env = some recs)
    (hdet : (detectorResultsOf createPanorama imageLoader regionDetector
      env)[i]? = some det)
    (hcam : (cameraInfosOf createPanorama env)[i]? = some cam)
    (hC : panoramic_boxes[i]? = some C)
    (hr : recs[i]? = some r) :
    (0 < det.boxes.length →
      r.roi_angles =
        (((calcAngles (det.boxes.map boxCenterX) (det.boxes.map boxCenterY)
              cam.h_view_angle cam.v_view_angle).1.zip
            (calcAngles (det.boxes.map boxCenterX) (det.boxes.map boxCenterY)
              cam.h_view_angle cam.v_view_angle).2).take C) ∧
      (viewAngles calcAngles cam det).length = det.boxes.length) ∧
    (det.boxes.length = 0 → r.roi_angles = []) := by
  have hrec := getVisualFeatures_record_eq createPanorama imageLoader
    regionDetector calcAngles panoramic_boxes env recs i C det cam r hres hdet
    hcam hC hr
  subst hrec
  constructor
  · intro hne
    refine ⟨?_, viewAngles_length calcAngles hcalc cam det⟩
    show (viewAngles calcAngles cam det).take C = _
    unfold viewAngles
    rw [if_pos hne]
  · intro hz
    show (viewAngles calcAngles cam det).take C = _
    unfold viewAngles
    rw [if_neg (by omega)]
    exact List.take_nil

/-- Witness for C8 at the concrete two-view panorama: view 0 has three
detections, and its stacked angle array has one row per detection before
truncation to the cap. -/
theorem claim8_roi_angles_witness :
    sampleRec0.roi_angles =
      (((sampleAngleFn (sampleDetA.boxes.map boxCenterX)
            (sampleDetA.boxes.map boxCenterY) sampleCam.h_view_angle
            sampleCam.v_view_angle).1.zip
          (sampleAngleFn (sampleDetA.boxes.map boxCenterX)
            (sampleDetA.boxes.map boxCenterY) sampleCam.h_view_angle
            sampleCam.v_view_angle).2).take 2) ∧
      (viewAngles sampleAngleFn sampleCam sampleDetA).length =
        sampleDetA.boxes.length := by
  have h := claim8_roi_angles sampleCapture sampleLoader sampleDetector
    sampleAngleFn [2, 2] () [sampleRec0, sampleRec1] 0 2 sampleDetA sampleCam
    sampleRec0 sampleAngleFn_contract sampleEval rfl rfl rfl rfl
  exact h.1 (by decide)

end EvalModel
